import Mathlib

/-!
Formal model of the DTB repository (src/py-app/app.py): a minimal HTTP
server built on Python's `http.server`.  The program defines a handler
class `MyHandler(SimpleHTTPRequestHandler)` overriding only `do_GET`,
and a function `run` that binds an `HTTPServer` to `('', port)` with
`port = 8000` by default and calls `serve_forever()`.

The embedding translates the program's own statements.  Library
primitives (`send_response`, `send_header`, `end_headers`,
`wfile.write`, socket bind, the `serve_forever` loop, and the
`do_<METHOD>` dispatch of `BaseHTTPRequestHandler`) are modelled at
their interface, as the operations the program invokes.
-/

/-- An incoming HTTP request, as far as the program could observe it:
a method, a path, and a (possibly empty) body of bytes. -/
structure Request where
  method : String
  path : String
  body : List Nat
deriving DecidableEq

/-- The outgoing response being assembled by a handler method:
the status code sent on the status line (if any yet), the headers
explicitly sent by the handler in order, whether `end_headers` (the
blank line terminating the header block) has been emitted, and the
body bytes written to `wfile`. -/
structure HandlerState where
  statusLine : Option Nat
  headers : List (String × String)
  headersEnded : Bool
  body : List Nat
deriving DecidableEq

/-- The state of a handler before any of its statements have run. -/
def initState : HandlerState := ⟨none, [], false, []⟩

/-- Model of `self.send_response(code)`: records the status line code.
(The standard library may additionally emit default `Server` and `Date`
headers on the wire; those are not statements of this program.) -/
def send_response (code : Nat) (s : HandlerState) : HandlerState :=
  ⟨some code, s.headers, s.headersEnded, s.body⟩

/-- Model of `self.send_header(keyword, value)`: appends one header. -/
def send_header (k v : String) (s : HandlerState) : HandlerState :=
  ⟨s.statusLine, s.headers ++ [(k, v)], s.headersEnded, s.body⟩

/-- Model of `self.end_headers()`: emits the blank line ending the
header block. -/
def end_headers (s : HandlerState) : HandlerState :=
  ⟨s.statusLine, s.headers, true, s.body⟩

/-- Model of `self.wfile.write(bytes)`: appends bytes to the body. -/
def wfile_write (bs : List Nat) (s : HandlerState) : HandlerState :=
  ⟨s.statusLine, s.headers, s.headersEnded, s.body ++ bs⟩

/-- The bytes of the literal `b"Hello, again!"` written by `do_GET`
(ASCII, hence the code points of the string). -/
def helloBytes : List Nat := "Hello, again!".data.map Char.toNat

/-- `MyHandler.do_GET` from app.py, lines 4-9: unconditionally sends
status 200, headers `Content-type: text/html` and `Author: me`, ends
the headers, and writes `b"Hello, again!"`.  The request (its path,
body, everything) is never consulted. -/
def MyHandler.do_GET (req : Request) : HandlerState :=
  wfile_write helloBytes
    (end_headers
      (send_header "Author" "me"
        (send_header "Content-type" "text/html"
          (send_response 200 initState))))

/-- What a `do_<METHOD>` handler method does, at the granularity the
claims need: `MyHandler.do_GET`'s fixed response, the filesystem-serving
behavior of `SimpleHTTPRequestHandler`'s own `do_GET`/`do_HEAD` (which
serve the current working directory via `send_head`), or the 501
`Unsupported method` error that `BaseHTTPRequestHandler` sends when no
`do_<METHOD>` attribute exists. -/
inductive RequestBehavior
  | fixedHello
  | serveFilesystem
  | errorUnsupported
deriving DecidableEq

/-- Method table of `http.server.SimpleHTTPRequestHandler` (the
standard-library base class named on app.py line 1): it defines
`do_GET` and `do_HEAD`, both of which serve the current working
directory's contents via `send_head`. -/
def SimpleHTTPRequestHandler_methods : List (String × RequestBehavior) :=
  [("GET", .serveFilesystem), ("HEAD", .serveFilesystem)]

/-- Method table of `MyHandler` (app.py line 3): the class body defines
only `do_GET`, so Python attribute lookup finds its `do_GET` first and
falls back to the base class for every other method. -/
def MyHandler_methods : List (String × RequestBehavior) :=
  ("GET", .fixedHello) :: SimpleHTTPRequestHandler_methods

/-- Model of `BaseHTTPRequestHandler.handle_one_request`'s dispatch:
look up `do_` + method along the class's attribute chain; if absent,
send the 501 `Unsupported method` error. -/
def dispatch (cls : List (String × RequestBehavior)) (method : String) :
    RequestBehavior :=
  match cls.lookup method with
  | some b => b
  | none => .errorUnsupported

/-- The configuration of a started server: the host and port it is
bound to (`server_address`) and the handler class it dispatches to. -/
structure ServerConfig where
  host : String
  port : Nat
  handlerMethods : List (String × RequestBehavior)
deriving DecidableEq

/-- The hardcoded default of `run`'s `port` parameter (app.py line 11). -/
def defaultPort : Nat := 8000

/-- `run` from app.py, lines 11-15: with handler class defaulting to
`MyHandler` and port defaulting to 8000, it sets
`server_address = ('', port)` and constructs the server from that
address and the handler class. -/
def run (handler_class : List (String × RequestBehavior) := MyHandler_methods)
    (port : Nat := defaultPort) : ServerConfig :=
  ⟨"", port, handler_class⟩

/-- The program entry point (app.py lines 17-18): `run()` with no
arguments.  Command-line arguments and environment variables are
parameters here only to record that the program reads neither. -/
def pyMain (argv : List String) (env : List (String × String)) : ServerConfig :=
  run

/-- Errors the underlying library can raise, as the program could see
them.  `EADDRINUSE` is the address-in-use `OSError` from a failed
socket bind. -/
inductive PyErr
  | EADDRINUSE
  | brokenPipe
  | other (msg : String)
deriving DecidableEq

/-- Model of `HTTPServer.__init__`'s socket bind against the set of
ports already held by another socket: binding an already-bound port
raises the address-in-use `OSError`; otherwise the port becomes bound. -/
def bindPort (bound : List Nat) (port : Nat) : Except PyErr (List Nat) :=
  if port ∈ bound then .error .EADDRINUSE else .ok (port :: bound)

/-- The outcome of calling `run`: either server construction raised at
bind (so `serve_forever` on line 15 is never reached), or the server is
up and serving with its configuration. -/
inductive RunOutcome
  | bindFailed (e : PyErr)
  | serving (cfg : ServerConfig)
deriving DecidableEq

/-- `run` again, now tracking the bind step of
`httpd = server_class(server_address, handler_class)` (app.py line 13)
against the ports already bound: the exception from a failed bind
propagates out of `run` (which has no try/except), and only a
successful construction goes on to `serve_forever`. -/
def runOn (bound : List Nat) (port : Nat := defaultPort) : RunOutcome :=
  match bindPort bound port with
  | .error e => .bindFailed e
  | .ok _ => .serving (run MyHandler_methods port)

/-- State of the `serve_forever` loop of the running server: whether a
shutdown has been requested (the loop's only exit condition) and how
many requests have been handled. -/
structure ServerState where
  shutdownRequested : Bool
  handled : Nat
deriving DecidableEq

/-- The server state right after `serve_forever` is entered. -/
def initialServerState : ServerState := ⟨false, 0⟩

/-- Handling one request: the handler writes its response to the
connection; no program code touches the shutdown flag. -/
def handle_request (req : Request) (s : ServerState) : ServerState :=
  ⟨s.shutdownRequested, s.handled + 1⟩

/-- One iteration of the `serve_forever` loop: exit (absorbing) if a
shutdown was requested, otherwise handle the next request. -/
def serve_step (req : Request) (s : ServerState) : ServerState :=
  if s.shutdownRequested then s else handle_request req s

/-- Running the `serve_forever` loop over a finite sequence of
incoming requests. -/
def serve_run (reqs : List Request) (s : ServerState) : ServerState :=
  reqs.foldl (fun st r => serve_step r st) s

/-- Whether the loop is still live (no shutdown requested). -/
def serving (s : ServerState) : Bool := !s.shutdownRequested

/-- The code points of a string with ASCII letters lowercased, used to
compare header names case-insensitively (HTTP header names are
case-insensitive). -/
def lowerCodes (s : String) : List Nat :=
  s.data.map (fun c => if 65 ≤ c.toNat ∧ c.toNat ≤ 90 then c.toNat + 32 else c.toNat)

/-- The I/O operations `do_GET` invokes, each allowed to raise. -/
structure NetEffects where
  send_response_f : Nat → Except PyErr Unit
  send_header_f : String → String → Except PyErr Unit
  end_headers_f : Except PyErr Unit
  write_f : List Nat → Except PyErr Unit

/-- `MyHandler.do_GET` with exception flow made explicit: the five
statements run in order; the body has no try/except, so the first
exception raised by a library call propagates out unchanged, and only
if all succeed is the pure response produced. -/
def do_GET_exc (eff : NetEffects) (req : Request) :
    Except PyErr HandlerState :=
  match eff.send_response_f 200 with
  | .error e => .error e
  | .ok _ =>
    match eff.send_header_f "Content-type" "text/html" with
    | .error e => .error e
    | .ok _ =>
      match eff.send_header_f "Author" "me" with
      | .error e => .error e
      | .ok _ =>
        match eff.end_headers_f with
        | .error e => .error e
        | .ok _ =>
          match eff.write_f helloBytes with
          | .error e => .error e
          | .ok _ => .ok (MyHandler.do_GET req)

/-- A concrete effect environment whose very first library call raises,
used to exhibit propagation on an explicit input. -/
def failingEffects : NetEffects :=
  ⟨fun _ => .error .brokenPipe,
   fun _ _ => .ok (),
   .ok (),
   fun _ => .ok ()⟩

/-- Helper: the serve loop preserves a cleared shutdown flag and counts
every request handled. -/
theorem serve_run_live (reqs : List Request) (s : ServerState)
    (h : s.shutdownRequested = false) :
    (serve_run reqs s).shutdownRequested = false ∧
      (serve_run reqs s).handled = s.handled + reqs.length := by
  induction reqs generalizing s with
  | nil => simpa [serve_run] using h.symm ▸ rfl
  | cons r rs ih =>
    have hstep : serve_step r s = handle_request r s := by
      simp [serve_step, h]
    have hflag : (handle_request r s).shutdownRequested = false := by
      simpa [handle_request] using h
    have := ih (handle_request r s) hflag
    constructor
    · simpa [serve_run, hstep] using this.1
    · have h2 := this.2
      simp only [serve_run] at h2 ⊢
      rw [List.foldl_cons, hstep, h2]
      simp [handle_request]
      omega

/-- C1: for every HTTP GET request, regardless of path (or body),
`do_GET` produces status 200, a `Content-type: text/html` header, an
`Author: me` header, and a body equal to exactly the 13 bytes of
`Hello, again!`, whose last byte is `!` (no trailing newline). -/
theorem do_GET_fixed_response (req : Request) :
    (MyHandler.do_GET req).statusLine = some 200 ∧
      (MyHandler.do_GET req).headers.lookup "Content-type" = some "text/html" ∧
      (MyHandler.do_GET req).headers.lookup "Author" = some "me" ∧
      (MyHandler.do_GET req).body = helloBytes ∧
      helloBytes.length = 13 ∧
      helloBytes.getLast? = some 33 := by
  refine ⟨rfl, rfl, rfl, rfl, by decide, by decide⟩

/-- C2: the response to a GET request does not depend on the request:
any two requests, in particular two GET requests differing only in
their path or body, receive identical responses from `do_GET`. -/
theorem do_GET_request_independent (r1 r2 : Request) :
    MyHandler.do_GET r1 = MyHandler.do_GET r2 := rfl

/-- C3: the response written for a GET request is exactly a status
line (200), exactly the two headers `Content-type: text/html` and
`Author: me` in that order and no others, the end of headers, and the
fixed body. -/
theorem do_GET_exact_output (req : Request) :
    MyHandler.do_GET req =
      ⟨some 200, [("Content-type", "text/html"), ("Author", "me")],
        true, helloBytes⟩ ∧
      (MyHandler.do_GET req).headers.length = 2 := ⟨rfl, rfl⟩

/-- C4: the entry point started with no arguments is exactly `run` at
its hardcoded defaults, binding host `""` and port 8000 with the
`MyHandler` class; it is a constant function of the command line and
the environment, so no flag or environment variable is consulted. -/
theorem pyMain_binds_port_8000 (argv : List String)
    (env : List (String × String)) :
    pyMain argv env = ⟨"", 8000, MyHandler_methods⟩ ∧
      pyMain argv env = run MyHandler_methods defaultPort ∧
      (pyMain argv env).port = defaultPort := ⟨rfl, rfl, rfl⟩

/-- C5: starting the server on a port still held by a first instance
fails at socket bind with the address-in-use error during server
construction, so the `serving` state (and hence `serve_forever`) is
never reached. -/
theorem rebind_same_port_fails (bound : List Nat) (port : Nat)
    (h : port ∈ bound) :
    runOn bound port = RunOutcome.bindFailed PyErr.EADDRINUSE := by
  simp [runOn, bindPort, h]

/-- Witness for C5 at a concrete state: port 8000 already bound. -/
theorem rebind_same_port_fails_witness :
    8000 ∈ [8000] ∧
      runOn [8000] 8000 = RunOutcome.bindFailed PyErr.EADDRINUSE :=
  ⟨by decide, rebind_same_port_fails [8000] 8000 (by decide)⟩

/-- C6: once entered, the serve loop never exits on its own: after any
finite sequence of incoming requests it is still serving (having
handled all of them), and no program step ever sets the shutdown flag,
so there is no shutdown path. -/
theorem serve_forever_never_returns (reqs : List Request) :
    serving (serve_run reqs initialServerState) = true ∧
      (serve_run reqs initialServerState).handled = reqs.length ∧
      (∀ (req : Request) (s : ServerState),
        (serve_step req s).shutdownRequested = s.shutdownRequested) := by
  have h := serve_run_live reqs initialServerState rfl
  refine ⟨by simp [serving, h.1], by simpa [initialServerState] using h.2, ?_⟩
  intro req s
  by_cases hs : s.shutdownRequested <;> simp [serve_step, handle_request, hs]

/-- C7: the program installs no exception handler: an error raised by
the first library call inside `do_GET` is returned from `do_GET`
unchanged, and an error raised by the socket bind inside `run` is the
outcome of `run` unchanged — never caught, reclassified or recovered. -/
theorem errors_propagate_uncaught (eff : NetEffects) (req : Request)
    (e1 : PyErr) (bound : List Nat) (port : Nat) (e2 : PyErr)
    (h1 : eff.send_response_f 200 = Except.error e1)
    (h2 : bindPort bound port = Except.error e2) :
    do_GET_exc eff req = Except.error e1 ∧
      runOn bound port = RunOutcome.bindFailed e2 := by
  constructor
  · simp [do_GET_exc, h1]
  · simp [runOn, h2]

/-- Witness for C7: a connection whose first write raises a broken
pipe, and a bind on an already-held port. -/
theorem errors_propagate_uncaught_witness :
    failingEffects.send_response_f 200 = Except.error PyErr.brokenPipe ∧
      bindPort [8000] 8000 = Except.error PyErr.EADDRINUSE ∧
      do_GET_exc failingEffects ⟨"GET", "/", []⟩ =
        Except.error PyErr.brokenPipe ∧
      runOn [8000] 8000 = RunOutcome.bindFailed PyErr.EADDRINUSE := by
  have h := errors_propagate_uncaught failingEffects ⟨"GET", "/", []⟩
    PyErr.brokenPipe [8000] 8000 PyErr.EADDRINUSE rfl rfl
  exact ⟨rfl, rfl, h.1, h.2⟩

/-- C8: `MyHandler` subclasses `SimpleHTTPRequestHandler`, so a HEAD
request dispatches to the inherited filesystem-serving `do_HEAD` — the
same behavior the base class gives HEAD — not to the fixed-response
`do_GET` override (which only GET reaches) and not to the 501
unsupported-method error. -/
theorem head_uses_inherited_filesystem_handler :
    dispatch MyHandler_methods "HEAD" = RequestBehavior.serveFilesystem ∧
      dispatch SimpleHTTPRequestHandler_methods "HEAD" =
        RequestBehavior.serveFilesystem ∧
      dispatch MyHandler_methods "GET" = RequestBehavior.fixedHello ∧
      dispatch MyHandler_methods "POST" = RequestBehavior.errorUnsupported :=
  ⟨rfl, rfl, rfl, rfl⟩

/-- C9: `do_GET` never sends a Content-Length header (under any
letter casing): its header block is exactly the two authored headers,
closed by the blank line, before the 13-byte body is written. -/
theorem do_GET_no_content_length (req : Request) :
    ((MyHandler.do_GET req).headers.all
      (fun p => !(lowerCodes p.1 == lowerCodes "Content-Length"))) = true ∧
      (MyHandler.do_GET req).headers =
        [("Content-type", "text/html"), ("Author", "me")] ∧
      (MyHandler.do_GET req).headersEnded = true ∧
      (MyHandler.do_GET req).body.length = 13 := by
  refine ⟨rfl, rfl, rfl, rfl⟩

/-- C10: the server address built by `run` uses the empty-string host
`''`, the wildcard address that listens on all interfaces, not the
loopback-only `localhost`. -/
theorem binds_all_interfaces :
    (run MyHandler_methods defaultPort).host = "" ∧
      (pyMain [] []).host = "" ∧
      ("" = "localhost") = False ∧
      ("" = "127.0.0.1") = False := by
  refine ⟨rfl, rfl, by simp, by simp⟩
